import Mathlib

/-!
Verification of the subtitle synchronization core (src/main.py).

Strings are modelled as lists of characters (`List Char`); the regex digit
class is modelled as the ASCII digit range, and Python integers as `Nat`/`Int`.
-/

/-- ASCII digit test, modelling the digit class of the source's regex
patterns. -/
def isDig (c : Char) : Bool := 48 ≤ c.toNat && c.toNat ≤ 57

/-- Numeric value of an ASCII digit character. -/
def dv (c : Char) : Nat := c.toNat - 48

/-- Test that a list of characters is exactly the 12-character timestamp
pattern DD:DD:DD,DDD used by parse_srt_time. -/
def stamp12 : List Char → Bool
  | [c0, c1, c2, c3, c4, c5, c6, c7, c8, c9, c10, c11] =>
    isDig c0 && isDig c1 && decide (c2 = ':') && isDig c3 && isDig c4 &&
    decide (c5 = ':') && isDig c6 && isDig c7 && decide (c8 = ',') &&
    isDig c9 && isDig c10 && isDig c11
  | _ => false

/-- Weighted digit sum h*3600000 + m*60000 + s*1000 + ms of a matched
timestamp, exactly as parse_srt_time combines the four captured groups. -/
def timeVal : List Char → Nat
  | [c0, c1, _, c3, c4, _, c6, c7, _, c9, c10, c11] =>
    (10 * dv c0 + dv c1) * 3600000 + (10 * dv c3 + dv c4) * 60000 +
    (10 * dv c6 + dv c7) * 1000 + (100 * dv c9 + 10 * dv c10 + dv c11)
  | _ => 0

/-- Model of parse_srt_time (src/main.py lines 65-71): re.match anchors the
pattern at the start of the string only, so exactly the first 12 characters
are inspected; on a non-match the function returns 0. -/
def parse_srt_time (s : List Char) : Nat :=
  if stamp12 (s.take 12) then timeVal (s.take 12) else 0

/-- Zero-padding to width 2, modelling the format specifier 02d: the decimal
digits of n, left-padded with zeros to at least two characters. -/
def pad2 (n : Nat) : List Char :=
  let d := Nat.toDigits 10 n
  List.replicate (2 - d.length) '0' ++ d

/-- Zero-padding to width 3, modelling the format specifier 03d. -/
def pad3 (n : Nat) : List Char :=
  let d := Nat.toDigits 10 n
  List.replicate (3 - d.length) '0' ++ d

/-- Model of ms_to_srt_time (src/main.py lines 74-84): clamps negative input
to 0, then decomposes by division and remainder and zero-pads each field. -/
def ms_to_srt_time (msIn : Int) : List Char :=
  let ms0 : Nat := if msIn < 0 then 0 else msIn.toNat
  let h := ms0 / 3600000
  let r1 := ms0 % 3600000
  let m := r1 / 60000
  let r2 := r1 % 60000
  let s := r2 / 1000
  let msf := r2 % 1000
  pad2 h ++ ':' :: (pad2 m ++ ':' :: (pad2 s ++ ',' :: pad3 msf))

/-- Minute field of a 12-character timestamp. -/
def minutesOf : List Char → Nat
  | [_, _, _, c3, c4, _, _, _, _, _, _, _] => 10 * dv c3 + dv c4
  | _ => 0

/-- Second field of a 12-character timestamp. -/
def secondsOf : List Char → Nat
  | [_, _, _, _, _, _, c6, c7, _, _, _, _] => 10 * dv c6 + dv c7
  | _ => 0

/-- Canonical timestamp: matches the pattern and its minute and second fields
are in range, so that the textual form is the canonical one for its value. -/
def canonicalStamp (s : List Char) : Bool :=
  stamp12 s && decide (minutesOf s < 60) && decide (secondsOf s < 60)

/-- Single-position test of the findall pattern stamp followed by " -->": the
12-character start timestamp with the literal arrow context after it. -/
def matchArrow (l : List Char) : Bool :=
  stamp12 (l.take 12) && decide ((l.drop 12).take 4 = [' ', '-', '-', '>'])

/-- Fuel-driven scanner loop: every step consumes at least one character, so
fuel equal to the list length always suffices and the fuel-exhausted branch
is unreachable from findTimes. -/
def findTimesAux : Nat → List Char → List (List Char)
  | 0, _ => []
  | _ + 1, [] => []
  | fuel + 1, c :: cs =>
    if matchArrow (c :: cs) then
      (c :: cs).take 12 :: findTimesAux fuel ((c :: cs).drop 16)
    else findTimesAux fuel cs

/-- Model of the re.findall scan in calculate_offset_from_srt (src/main.py
line 207/208): left-to-right, non-overlapping; on a match the captured stamp
is collected and scanning resumes after the matched text, otherwise the scan
advances one character. -/
def findTimes (l : List Char) : List (List Char) :=
  findTimesAux l.length l

/-- Differences aligned minus original over the first min(5, both lengths)
extracted cue start times, as built by the loop in calculate_offset_from_srt
(src/main.py lines 214-218). -/
def offsetsOf (original synced : List Char) : List Int :=
  (List.range (min 5 (min (findTimes original).length
      (findTimes synced).length))).map
    (fun i => (parse_srt_time ((findTimes synced).getD i []) : Int) -
      (parse_srt_time ((findTimes original).getD i []) : Int))

/-- Model of calculate_offset_from_srt (src/main.py lines 205-225): extract
cue start stamps from both tracks, return 0 if either is empty, else sort the
pairwise differences ascending and return the element at index length / 2. -/
def calculate_offset_from_srt (original synced : List Char) : Int :=
  if findTimes original = [] ∨ findTimes synced = [] then 0
  else
    let offsets := offsetsOf original synced
    if offsets = [] then 0
    else
      let sorted := offsets.insertionSort (· ≤ ·)
      sorted.getD (sorted.length / 2) 0

/-- Modelled from the spec: src/ contains no Shift Transform, so the pattern
for one start --> end timestamp-pair occurrence follows section 4.5 of the
spec: a 12-character stamp, the literal arrow separator, and a second
12-character stamp. -/
def pairPat (l : List Char) : Bool :=
  stamp12 (l.take 12) &&
  decide ((l.drop 12).take 5 = [' ', '-', '-', '>', ' ']) &&
  stamp12 ((l.drop 17).take 12)

/-- Modelled from the spec: fuel-driven scan loop of the Shift Transform
(section 4.5): locates every timestamp-pair occurrence and replaces each with
format(parse(start)+offset) --> format(parse(end)+offset), leaving all other
content untouched. Fuel equal to the list length always suffices. -/
def shiftAux : Nat → List Char → Int → List Char
  | 0, l, _ => l
  | _ + 1, [], _ => []
  | fuel + 1, c :: cs, off =>
    if pairPat (c :: cs) then
      ms_to_srt_time ((parse_srt_time ((c :: cs).take 12) : Int) + off) ++
        ' ' :: '-' :: '-' :: '>' :: ' ' ::
        (ms_to_srt_time
            ((parse_srt_time (((c :: cs).drop 17).take 12) : Int) + off) ++
          shiftAux fuel ((c :: cs).drop 29) off)
    else c :: shiftAux fuel cs off

/-- Modelled from the spec: the Shift Transform shift(track_text, offset_ms)
of section 4.5, absent from src/ (only parse/format exist there). -/
def shiftChars (l : List Char) (off : Int) : List Char :=
  shiftAux l.length l off

/-- Well-formedness scan: every timestamp-pair occurrence found by the shift
scan consists of canonical stamps (minute and second fields in range). -/
def wfAux : Nat → List Char → Bool
  | 0, _ => true
  | _ + 1, [] => true
  | fuel + 1, c :: cs =>
    if pairPat (c :: cs) then
      canonicalStamp ((c :: cs).take 12) &&
      canonicalStamp (((c :: cs).drop 17).take 12) &&
      wfAux fuel ((c :: cs).drop 29)
    else wfAux fuel cs

/-- Well-formed track: all timestamp pairs located by the shift scan are
canonical. -/
def wfTrack (l : List Char) : Bool :=
  wfAux l.length l

/-- Python exception values observable at the subprocess boundary of this
program: the executable being absent, the invocation timing out, or any other
exception. -/
inductive PyExc
  | fileNotFound (msg : String)
  | timeoutExpired
  | other (msg : String)
deriving DecidableEq, Repr

/-- Message text str(e) of an exception. -/
def excStr : PyExc → String
  | .fileNotFound m => m
  | .timeoutExpired => "TimeoutExpired"
  | .other m => m

/-- Fields of a completed subprocess invocation. -/
structure Completed where
  returncode : Int
  stdout : String
  stderr : String
deriving DecidableEq, Repr

/-- Outcome of one subprocess invocation: completed, or an exception raised
by the call. -/
abbrev RunResult := Except PyExc Completed

/-- Observable state of a tool's output file directly after its invocation:
os.path.exists, os.path.getsize, and the text content at that path. -/
structure FileState where
  present : Bool
  size : Nat
  content : String
deriving DecidableEq, Repr

/-- External world of one request: the outcomes of the three subprocess
invocations, the output-file state after each, and the wall clock elapsed at
each exit point of the orchestrator. -/
structure Env where
  ffmpegRun : RunResult
  audioOut : FileState
  ffsubRun : RunResult
  ffsubOut : FileState
  alassRun : RunResult
  alassOut : FileState
  tExtractFail : Nat
  tAlignFail : Nat
  tDone : Nat
deriving Repr

/-- Request body of the sync endpoints (src/main.py lines 48-52). -/
structure SyncRequest where
  stream_url : String
  subtitle : String
  language : String := "en"
deriving DecidableEq, Repr

/-- Response of the sync endpoints (src/main.py lines 55-62); confidence is
modelled as a rational. -/
structure SyncResponse where
  success : Bool
  offset_ms : Int
  synced_subtitle : Option String := none
  confidence : Option ℚ := none
  message : String
  processing_time_ms : Nat
deriving DecidableEq, Repr

/-- Model of extract_audio (src/main.py lines 87-128): a completed run with
zero exit code succeeds when the output file exists and exceeds 10000 bytes;
non-zero exit, timeout and every other exception all yield False. -/
def extract_audio (run : RunResult) (outF : FileState) : Bool :=
  match run with
  | .ok res =>
    if res.returncode ≠ 0 then false
    else outF.present && decide (10000 < outF.size)
  | .error _ => false

/-- Model of run_ffsubsync (src/main.py lines 131-166): success is judged by
the output file existing with positive size, and the log is the combined
stdout and stderr; a timeout yields (False, "Timeout") and every other
exception (False, str(e)). The internal handlers cover every modelled
exception, so every branch returns ok. -/
def run_ffsubsync (run : RunResult) (outF : FileState) :
    Except PyExc (Bool × String) :=
  match run with
  | .ok res => .ok (outF.present && decide (0 < outF.size),
      res.stdout ++ res.stderr)
  | .error .timeoutExpired => .ok (false, "Timeout")
  | .error e => .ok (false, excStr e)

/-- Model of run_alass_sync (src/main.py lines 169-202), with the same
success criterion and handlers as the primary tool. -/
def run_alass_sync (run : RunResult) (outF : FileState) :
    Except PyExc (Bool × String) :=
  match run with
  | .ok res => .ok (outF.present && decide (0 < outF.size),
      res.stdout ++ res.stderr)
  | .error .timeoutExpired => .ok (false, "Timeout")
  | .error e => .ok (false, excStr e)

/-- The try/except FileNotFoundError wrapper around the primary invocation in
sync_subtitle (src/main.py lines 302-305): when that exception is caught,
success and output_log keep their initialized values False and "". -/
def tryPrimary (env : Env) : Except PyExc (Bool × String) :=
  match run_ffsubsync env.ffsubRun env.ffsubOut with
  | .ok r => .ok r
  | .error (.fileNotFound _) => .ok (false, "")
  | .error e => .error e

/-- Model of the sync_subtitle orchestrator (src/main.py lines 263-338):
extraction failure and alignment failure return failure responses; on
success the synced file content (written by whichever tool succeeded) is
read, the offset computed from it, and a success response assembled with
the constant confidence 0.9. -/
def sync_subtitle (env : Env) (request : SyncRequest) :
    Except PyExc SyncResponse :=
  if extract_audio env.ffmpegRun env.audioOut = false then
    .ok { success := false, offset_ms := 0,
          message := "Failed to extract audio from stream. Check if URL is accessible.",
          processing_time_ms := env.tExtractFail }
  else
    match tryPrimary env with
    | .error e => .error e
    | .ok (success1, log1) =>
      match (if success1 = false then run_alass_sync env.alassRun env.alassOut
             else .ok (success1, log1)) with
      | .error e => .error e
      | .ok (success, output_log) =>
        if success = false then
          .ok { success := false, offset_ms := 0,
                message := "Synchronization failed: " ++ output_log.take 200,
                processing_time_ms := env.tAlignFail }
        else
          let synced_content :=
            if success1 then env.ffsubOut.content else env.alassOut.content
          let offset_ms :=
            calculate_offset_from_srt request.subtitle.data synced_content.data
          .ok { success := true, offset_ms := offset_ms,
                synced_subtitle := some synced_content,
                confidence := some ((9 : ℚ) / 10),
                message := "Synchronized successfully. Offset: " ++
                  toString offset_ms ++ "ms",
                processing_time_ms := env.tDone }

/-- Model of get_offset_only (src/main.py lines 341-350): forwards to
sync_subtitle and clears the synced_subtitle field of the response. -/
def get_offset_only (env : Env) (request : SyncRequest) :
    Except PyExc SyncResponse :=
  match sync_subtitle env request with
  | .ok r => .ok { r with synced_subtitle := none }
  | .error e => .error e

/-- Success flag of the primary-tool attempt as observed by the
orchestrator. -/
def primarySuccess (env : Env) : Bool :=
  match tryPrimary env with
  | .ok p => p.1
  | .error _ => false

/-- Success flag of the fallback-tool attempt. -/
def alassSuccess (env : Env) : Bool :=
  match run_alass_sync env.alassRun env.alassOut with
  | .ok p => p.1
  | .error _ => false

/-- Environment in which audio extraction raises, so the orchestrator takes
its first failure exit. -/
def envExtractFail : Env where
  ffmpegRun := .error (.other "boom")
  audioOut := { present := false, size := 0, content := "" }
  ffsubRun := .ok { returncode := 0, stdout := "", stderr := "" }
  ffsubOut := { present := false, size := 0, content := "" }
  alassRun := .ok { returncode := 0, stdout := "", stderr := "" }
  alassOut := { present := false, size := 0, content := "" }
  tExtractFail := 5
  tAlignFail := 7
  tDone := 9

/-- Environment in which the primary tool's executable is absent and the
fallback tool succeeds. -/
def envFallback : Env where
  ffmpegRun := .ok { returncode := 0, stdout := "", stderr := "" }
  audioOut := { present := true, size := 20000, content := "" }
  ffsubRun := .error (.fileNotFound "No such file: ffsubsync")
  ffsubOut := { present := false, size := 0, content := "" }
  alassRun := .ok { returncode := 0, stdout := "alass ok", stderr := "" }
  alassOut := { present := true, size := 40,
                content := "1\n00:00:02,000 --> 00:00:03,000\nHi\n" }
  tExtractFail := 5
  tAlignFail := 7
  tDone := 9

/-- Environment in which the primary tool succeeds and prints a score token
in its output. -/
def envScore : Env where
  ffmpegRun := .ok { returncode := 0, stdout := "", stderr := "" }
  audioOut := { present := true, size := 20000, content := "" }
  ffsubRun := .ok { returncode := 0, stdout := "score: 0.5\n", stderr := "" }
  ffsubOut := { present := true, size := 40,
                content := "1\n00:00:02,000 --> 00:00:03,000\nHi\n" }
  alassRun := .ok { returncode := 0, stdout := "", stderr := "" }
  alassOut := { present := false, size := 0, content := "" }
  tExtractFail := 5
  tAlignFail := 7
  tDone := 9

/-- Concrete request used by the witnesses. -/
def reqEx : SyncRequest where
  stream_url := "http://example.test/stream"
  subtitle := "1\n00:00:01,000 --> 00:00:02,000\nHi\n"

/-- Response produced on the extraction-failure path of envExtractFail. -/
def respExtractFail : SyncResponse where
  success := false
  offset_ms := 0
  message := "Failed to extract audio from stream. Check if URL is accessible."
  processing_time_ms := 5

/-- Response produced on the fallback-success path of envFallback. -/
def respFallback : SyncResponse where
  success := true
  offset_ms := 1000
  synced_subtitle := some "1\n00:00:02,000 --> 00:00:03,000\nHi\n"
  confidence := some ((9 : ℚ) / 10)
  message := "Synchronized successfully. Offset: 1000ms"
  processing_time_ms := 9

set_option maxRecDepth 4000 in
theorem pad2_eq_of_lt : ∀ n, n < 100 →
    pad2 n = [Nat.digitChar (n / 10), Nat.digitChar (n % 10)] := by decide

set_option maxRecDepth 40000 in
theorem pad3_eq_of_lt : ∀ n, n < 1000 →
    pad3 n = [Nat.digitChar (n / 100), Nat.digitChar (n / 10 % 10),
              Nat.digitChar (n % 10)] := by decide

theorem isDig_digitChar : ∀ d, d < 10 → isDig (Nat.digitChar d) = true := by decide

theorem dv_digitChar : ∀ d, d < 10 → dv (Nat.digitChar d) = d := by decide

theorem digitChar_toNat : ∀ d, d < 10 → (Nat.digitChar d).toNat = 48 + d := by decide

theorem char_eq_of_toNat_eq {a b : Char} (h : a.toNat = b.toNat) : a = b := by
  apply Char.ext
  apply UInt32.ext
  exact h

theorem isDig_toNat {c : Char} (h : isDig c = true) :
    48 ≤ c.toNat ∧ c.toNat ≤ 57 := by
  simpa [isDig] using h

theorem digitChar_dv {c : Char} (h : isDig c = true) :
    Nat.digitChar (dv c) = c := by
  obtain ⟨h1, h2⟩ := isDig_toNat h
  apply char_eq_of_toNat_eq
  rw [digitChar_toNat (dv c) (by unfold dv; omega)]
  unfold dv
  omega

theorem dv_lt_ten {c : Char} (h : isDig c = true) : dv c < 10 := by
  obtain ⟨h1, h2⟩ := isDig_toNat h
  unfold dv
  omega

/-- Explicit character form of ms_to_srt_time for a decomposed value in
range: the result is precisely the twelve characters of the canonical
timestamp. -/
theorem ms_to_srt_time_eq (H M S F : Nat) (hH : H < 100) (hM : M < 60)
    (hS : S < 60) (hF : F < 1000) :
    ms_to_srt_time ((H * 3600000 + M * 60000 + S * 1000 + F : Nat) : Int) =
      [Nat.digitChar (H / 10), Nat.digitChar (H % 10), ':',
       Nat.digitChar (M / 10), Nat.digitChar (M % 10), ':',
       Nat.digitChar (S / 10), Nat.digitChar (S % 10), ',',
       Nat.digitChar (F / 100), Nat.digitChar (F / 10 % 10),
       Nat.digitChar (F % 10)] := by
  unfold ms_to_srt_time
  have hneg : ¬ ((H * 3600000 + M * 60000 + S * 1000 + F : Nat) : Int) < 0 :=
    not_lt.mpr (Int.natCast_nonneg _)
  rw [if_neg hneg, Int.toNat_natCast]
  have e1 : (H * 3600000 + M * 60000 + S * 1000 + F) / 3600000 = H := by omega
  have e2 : (H * 3600000 + M * 60000 + S * 1000 + F) % 3600000
      = M * 60000 + S * 1000 + F := by omega
  have e3 : (M * 60000 + S * 1000 + F) / 60000 = M := by omega
  have e4 : (M * 60000 + S * 1000 + F) % 60000 = S * 1000 + F := by omega
  have e5 : (S * 1000 + F) / 1000 = S := by omega
  have e6 : (S * 1000 + F) % 1000 = F := by omega
  simp only [e1, e2, e3, e4, e5, e6]
  rw [pad2_eq_of_lt H hH, pad2_eq_of_lt M (by omega), pad2_eq_of_lt S (by omega),
    pad3_eq_of_lt F hF]
  rfl

/-- Parsing an explicit 12-character digits-and-separators list recombines the
digit values with the millisecond weights. -/
theorem parse_digits (c0 c1 c3 c4 c6 c7 c9 c10 c11 : Char)
    (h0 : isDig c0 = true) (h1 : isDig c1 = true) (h3 : isDig c3 = true)
    (h4 : isDig c4 = true) (h6 : isDig c6 = true) (h7 : isDig c7 = true)
    (h9 : isDig c9 = true) (h10 : isDig c10 = true) (h11 : isDig c11 = true) :
    parse_srt_time [c0, c1, ':', c3, c4, ':', c6, c7, ',', c9, c10, c11] =
      (10 * dv c0 + dv c1) * 3600000 + (10 * dv c3 + dv c4) * 60000 +
      (10 * dv c6 + dv c7) * 1000 +
      (100 * dv c9 + 10 * dv c10 + dv c11) := by
  have ht : List.take 12 [c0, c1, ':', c3, c4, ':', c6, c7, ',', c9, c10, c11]
      = [c0, c1, ':', c3, c4, ':', c6, c7, ',', c9, c10, c11] := rfl
  unfold parse_srt_time
  rw [ht]
  have hs : stamp12 [c0, c1, ':', c3, c4, ':', c6, c7, ',', c9, c10, c11]
      = true := by
    simp [stamp12, h0, h1, h3, h4, h6, h7, h9, h10, h11]
  rw [hs]
  simp [timeVal]

theorem stamp12_elim {s : List Char} (h : stamp12 s = true) :
    ∃ c0 c1 c3 c4 c6 c7 c9 c10 c11,
      s = [c0, c1, ':', c3, c4, ':', c6, c7, ',', c9, c10, c11] ∧
      isDig c0 = true ∧ isDig c1 = true ∧ isDig c3 = true ∧ isDig c4 = true ∧
      isDig c6 = true ∧ isDig c7 = true ∧ isDig c9 = true ∧ isDig c10 = true ∧
      isDig c11 = true := by
  rcases s with _ | ⟨c0, s⟩; · simp [stamp12] at h
  rcases s with _ | ⟨c1, s⟩; · simp [stamp12] at h
  rcases s with _ | ⟨c2, s⟩; · simp [stamp12] at h
  rcases s with _ | ⟨c3, s⟩; · simp [stamp12] at h
  rcases s with _ | ⟨c4, s⟩; · simp [stamp12] at h
  rcases s with _ | ⟨c5, s⟩; · simp [stamp12] at h
  rcases s with _ | ⟨c6, s⟩; · simp [stamp12] at h
  rcases s with _ | ⟨c7, s⟩; · simp [stamp12] at h
  rcases s with _ | ⟨c8, s⟩; · simp [stamp12] at h
  rcases s with _ | ⟨c9, s⟩; · simp [stamp12] at h
  rcases s with _ | ⟨c10, s⟩; · simp [stamp12] at h
  rcases s with _ | ⟨c11, s⟩; · simp [stamp12] at h
  rcases s with _ | ⟨c12, s⟩
  · simp only [stamp12, Bool.and_eq_true, decide_eq_true_eq] at h
    obtain ⟨⟨⟨⟨⟨⟨⟨⟨⟨⟨⟨d0, d1⟩, e2⟩, d3⟩, d4⟩, e5⟩, d6⟩, d7⟩, e8⟩, d9⟩, d10⟩, d11⟩ := h
    subst e2; subst e5; subst e8
    exact ⟨c0, c1, c3, c4, c6, c7, c9, c10, c11, rfl, d0, d1, d3, d4, d6, d7,
      d9, d10, d11⟩
  · simp [stamp12] at h

/-- Formatting the parsed value of a canonical timestamp reproduces it
character for character. -/
theorem format_timeVal {s : List Char} (h : canonicalStamp s = true) :
    ms_to_srt_time ((timeVal s : Nat) : Int) = s := by
  obtain ⟨hs, hm, hsec⟩ : stamp12 s = true ∧ minutesOf s < 60 ∧ secondsOf s < 60 := by
    simpa [canonicalStamp, Bool.and_eq_true, decide_eq_true_eq, and_assoc]
      using h
  obtain ⟨c0, c1, c3, c4, c6, c7, c9, c10, c11, rfl, d0, d1, d3, d4, d6, d7,
    d9, d10, d11⟩ := stamp12_elim hs
  have hM : 10 * dv c3 + dv c4 < 60 := by simpa [minutesOf] using hm
  have hS : 10 * dv c6 + dv c7 < 60 := by simpa [secondsOf] using hsec
  have b0 := dv_lt_ten d0
  have b1 := dv_lt_ten d1
  have b9 := dv_lt_ten d9
  have b10 := dv_lt_ten d10
  have b11 := dv_lt_ten d11
  have hH : 10 * dv c0 + dv c1 < 100 := by omega
  have hF : 100 * dv c9 + 10 * dv c10 + dv c11 < 1000 := by omega
  have ht : timeVal [c0, c1, ':', c3, c4, ':', c6, c7, ',', c9, c10, c11]
      = (10 * dv c0 + dv c1) * 3600000 + (10 * dv c3 + dv c4) * 60000 +
        (10 * dv c6 + dv c7) * 1000 + (100 * dv c9 + 10 * dv c10 + dv c11) := by
    simp [timeVal]
  rw [ht, ms_to_srt_time_eq _ _ _ _ hH hM hS hF]
  rw [show (10 * dv c0 + dv c1) / 10 = dv c0 by omega,
    show (10 * dv c0 + dv c1) % 10 = dv c1 by omega,
    show (10 * dv c3 + dv c4) / 10 = dv c3 by have := dv_lt_ten d4; omega,
    show (10 * dv c3 + dv c4) % 10 = dv c4 by have := dv_lt_ten d4; omega,
    show (10 * dv c6 + dv c7) / 10 = dv c6 by have := dv_lt_ten d7; omega,
    show (10 * dv c6 + dv c7) % 10 = dv c7 by have := dv_lt_ten d7; omega,
    show (100 * dv c9 + 10 * dv c10 + dv c11) / 100 = dv c9 by omega,
    show (100 * dv c9 + 10 * dv c10 + dv c11) / 10 % 10 = dv c10 by omega,
    show (100 * dv c9 + 10 * dv c10 + dv c11) % 10 = dv c11 by omega,
    digitChar_dv d0, digitChar_dv d1, digitChar_dv d3, digitChar_dv d4,
    digitChar_dv d6, digitChar_dv d7, digitChar_dv d9, digitChar_dv d10,
    digitChar_dv d11]

/-- C1 counterexample: at x = 360,000,000 ms (100 hours) the formatter emits a
three-digit hour field, which the two-digit parse pattern rejects, so the
round trip returns 0, not x. -/
theorem C1_counterexample :
    parse_srt_time (ms_to_srt_time ((360000000 : Nat) : Int)) = 0 ∧
    (0 : Nat) ≠ 360000000 := by
  constructor
  · rfl
  · decide

/-- C1 (amended): for every non-negative x below 360,000,000 ms (hour field
below 100), parsing the formatted text gives back x:
parse_srt_time (ms_to_srt_time x) = x. -/
theorem C1_parse_format_roundtrip (x : Nat) (hx : x < 360000000) :
    parse_srt_time (ms_to_srt_time (x : Int)) = x := by
  obtain ⟨H, M, S, F, hH, hM, hS, hF, rfl⟩ :
      ∃ H M S F, H < 100 ∧ M < 60 ∧ S < 60 ∧ F < 1000 ∧
        x = H * 3600000 + M * 60000 + S * 1000 + F :=
    ⟨x / 3600000, x % 3600000 / 60000, x % 3600000 % 60000 / 1000,
     x % 3600000 % 60000 % 1000, by omega, by omega, by omega, by omega,
     by omega⟩
  rw [show ((H * 3600000 + M * 60000 + S * 1000 + F : Nat) : Int)
      = ((H * 3600000 + M * 60000 + S * 1000 + F : Nat) : Int) from rfl,
    ms_to_srt_time_eq H M S F hH hM hS hF]
  rw [parse_digits _ _ _ _ _ _ _ _ _
    (isDig_digitChar _ (by omega)) (isDig_digitChar _ (by omega))
    (isDig_digitChar _ (by omega)) (isDig_digitChar _ (by omega))
    (isDig_digitChar _ (by omega)) (isDig_digitChar _ (by omega))
    (isDig_digitChar _ (by omega)) (isDig_digitChar _ (by omega))
    (isDig_digitChar _ (by omega))]
  rw [dv_digitChar _ (by omega : H / 10 < 10),
    dv_digitChar _ (by omega : H % 10 < 10),
    dv_digitChar _ (by omega : M / 10 < 10),
    dv_digitChar _ (by omega : M % 10 < 10),
    dv_digitChar _ (by omega : S / 10 < 10),
    dv_digitChar _ (by omega : S % 10 < 10),
    dv_digitChar _ (by omega : F / 100 < 10),
    dv_digitChar _ (by omega : F / 10 % 10 < 10),
    dv_digitChar _ (by omega : F % 10 < 10)]
  omega

/-- C1 witness: the amended round trip evaluated just below the bound. -/
theorem C1_roundtrip_witness :
    359999999 < 360000000 ∧
    parse_srt_time (ms_to_srt_time ((359999999 : Nat) : Int)) = 359999999 :=
  ⟨by decide, C1_parse_format_roundtrip 359999999 (by decide)⟩

/-- C10: parse_srt_time anchors its pattern only at the start of the string;
whenever the first 12 characters match the timestamp pattern, any trailing
characters are ignored and the weighted digit sum of that prefix is returned
rather than the non-match fallback of 0. -/
theorem C10_parse_prefix_anchored (s rest : List Char)
    (h : stamp12 s = true) :
    parse_srt_time (s ++ rest) = timeVal s := by
  have hl : s.length = 12 := by
    obtain ⟨c0, c1, c3, c4, c6, c7, c9, c10, c11, rfl, -⟩ := stamp12_elim h
    rfl
  unfold parse_srt_time
  rw [List.take_left' hl, if_pos h]

/-- C10 witness: parsing a timestamp with trailing text yields the weighted
digit sum 1000 of the prefix, not 0. -/
theorem C10_parse_prefix_witness :
    parse_srt_time (("00:00:01,000".data) ++ (" extra text".data)) = 1000 :=
  (C10_parse_prefix_anchored ("00:00:01,000".data) (" extra text".data)
    (by decide)).trans (by decide)

theorem findTimesAux_eq_nil : ∀ (fuel : Nat) (l : List Char),
    (∀ i, i < l.length → matchArrow (l.drop i) = false) →
    findTimesAux fuel l = [] := by
  intro fuel
  induction fuel with
  | zero => intro l _; rfl
  | succ n ih =>
    intro l hm
    cases l with
    | nil => rfl
    | cons c cs =>
      have h0 : matchArrow (c :: cs) = false := by
        simpa using hm 0 (by simp)
      rw [findTimesAux, if_neg (by simp [h0])]
      exact ih cs (fun i hi => by
        simpa [List.drop_succ_cons] using hm (i + 1) (by simpa using hi))

theorem findTimes_eq_nil {l : List Char}
    (h : ∀ i, i < l.length → matchArrow (l.drop i) = false) :
    findTimes l = [] :=
  findTimesAux_eq_nil l.length l h

/-- C8: if either track text contains no occurrence of the start-timestamp
marker (stamp followed by the arrow), calculate_offset_from_srt returns 0
without failing, via the empty-times guard. -/
theorem C8_no_marker_returns_zero (original synced : List Char)
    (h : (∀ i, i < original.length → matchArrow (original.drop i) = false) ∨
         (∀ i, i < synced.length → matchArrow (synced.drop i) = false)) :
    calculate_offset_from_srt original synced = 0 := by
  unfold calculate_offset_from_srt
  rcases h with h | h
  · rw [findTimes_eq_nil h]
    simp
  · rw [findTimes_eq_nil h]
    simp

/-- C8 witness: a track with no timestamp marker yields offset 0. -/
theorem C8_no_marker_witness :
    calculate_offset_from_srt ("hello world".data)
      ("1\n00:00:05,000 --> 00:00:06,000\nhi\n".data) = 0 :=
  C8_no_marker_returns_zero _ _ (Or.inl (by decide))

theorem offsetsOf_ne_nil_left {original synced : List Char}
    (h : offsetsOf original synced ≠ []) : findTimes original ≠ [] := by
  intro he
  apply h
  unfold offsetsOf
  rw [he]
  simp

theorem offsetsOf_ne_nil_right {original synced : List Char}
    (h : offsetsOf original synced ≠ []) : findTimes synced ≠ [] := by
  intro he
  apply h
  unfold offsetsOf
  rw [he]
  simp

/-- C2 counterexample: two compared cue pairs with differences 100 ms and
300 ms; the sorted difference list is [100, 300], whose lower middle element
is 100, but the code indexes at length / 2 = 1 and returns 300. -/
theorem C2_counterexample :
    calculate_offset_from_srt
      ("1\n00:00:01,000 --> 00:00:02,000\n\n2\n00:00:05,000 --> 00:00:06,000\n".data)
      ("1\n00:00:01,100 --> 00:00:02,100\n\n2\n00:00:05,300 --> 00:00:06,300\n".data)
      = 300 ∧
    ¬ (calculate_offset_from_srt
      ("1\n00:00:01,000 --> 00:00:02,000\n\n2\n00:00:05,000 --> 00:00:06,000\n".data)
      ("1\n00:00:01,100 --> 00:00:02,100\n\n2\n00:00:05,300 --> 00:00:06,300\n".data)
      = 100) := by
  constructor
  · decide
  · decide

/-- C2 (amended): for every pair of track texts yielding an even number of
compared cue pairs, calculate_offset_from_srt returns the element at index
length / 2 of the ascending-sorted difference list, i.e. the HIGHER of the
two middle elements (not the lower). Stated against any sorted permutation
of the differences. -/
theorem C2_even_median_upper (original synced : List Char) (l : List Int)
    (hne : offsetsOf original synced ≠ [])
    (_heven : Even (offsetsOf original synced).length)
    (hperm : l.Perm (offsetsOf original synced))
    (hsort : l.Sorted (· ≤ ·)) :
    calculate_offset_from_srt original synced = l.getD (l.length / 2) 0 := by
  unfold calculate_offset_from_srt
  rw [if_neg (by
    rintro (h | h)
    · exact offsetsOf_ne_nil_left hne h
    · exact offsetsOf_ne_nil_right hne h)]
  simp only
  rw [if_neg hne]
  have hperm2 : l.Perm ((offsetsOf original synced).insertionSort (· ≤ ·)) :=
    hperm.trans (List.perm_insertionSort _ _).symm
  have hsorted2 : ((offsetsOf original synced).insertionSort (· ≤ ·)).Sorted
      (· ≤ ·) := List.sorted_insertionSort _ _
  rw [← List.eq_of_perm_of_sorted hperm2 hsort hsorted2]

/-- C2 witness: the amended statement evaluated on two cue pairs with sorted
differences [100, 300]; the returned value is the higher middle element. -/
theorem C2_even_median_witness :
    calculate_offset_from_srt
      ("1\n00:00:01,000 --> 00:00:02,000\n\n2\n00:00:05,000 --> 00:00:06,000\n".data)
      ("1\n00:00:01,100 --> 00:00:02,100\n\n2\n00:00:05,300 --> 00:00:06,300\n".data)
      = 300 :=
  (C2_even_median_upper _ _ ([100, 300] : List Int)
    (by decide) (by decide) (by decide) (by decide)).trans (by decide)

theorem parse_of_stamp {s : List Char} (h : stamp12 s = true) :
    parse_srt_time s = timeVal s := by
  obtain ⟨c0, c1, c3, c4, c6, c7, c9, c10, c11, rfl, -⟩ := stamp12_elim h
  unfold parse_srt_time
  rw [show List.take 12 [c0, c1, ':', c3, c4, ':', c6, c7, ',', c9, c10, c11]
      = [c0, c1, ':', c3, c4, ':', c6, c7, ',', c9, c10, c11] from rfl,
    if_pos h]

theorem canonicalStamp_stamp12 {s : List Char} (h : canonicalStamp s = true) :
    stamp12 s = true := by
  simp only [canonicalStamp, Bool.and_eq_true] at h
  exact h.1.1

theorem stamp12_length_eq {s : List Char} (h : stamp12 s = true) :
    s.length = 12 := by
  obtain ⟨c0, c1, c3, c4, c6, c7, c9, c10, c11, rfl, -⟩ := stamp12_elim h
  rfl

theorem pairPat_reconstruct {t : List Char} (h : pairPat t = true) :
    t.take 12 ++ ' ' :: '-' :: '-' :: '>' :: ' ' ::
      ((t.drop 17).take 12 ++ t.drop 29) = t := by
  obtain ⟨h1, h2, h3⟩ : stamp12 (t.take 12) = true ∧
      (t.drop 12).take 5 = [' ', '-', '-', '>', ' '] ∧
      stamp12 ((t.drop 17).take 12) = true := by
    simpa [pairPat, Bool.and_eq_true, decide_eq_true_eq, and_assoc] using h
  have e17 : (t.drop 12).drop 5 = t.drop 17 := by
    rw [List.drop_drop]
  have e29 : (t.drop 17).drop 12 = t.drop 29 := by
    rw [List.drop_drop]
  have hd12 : t.drop 12 = ' ' :: '-' :: '-' :: '>' :: ' ' :: t.drop 17 := by
    conv_lhs => rw [← List.take_append_drop 5 (t.drop 12)]
    rw [h2, e17]
    rfl
  have hd17 : (t.drop 17).take 12 ++ t.drop 29 = t.drop 17 := by
    rw [← e29, List.take_append_drop]
  conv_rhs => rw [← List.take_append_drop 12 t, hd12]
  rw [hd17]

theorem shiftAux_zero : ∀ (fuel : Nat) (l : List Char),
    wfAux fuel l = true → shiftAux fuel l 0 = l := by
  intro fuel
  induction fuel with
  | zero => intro l _; rfl
  | succ n ih =>
    intro l hw
    cases l with
    | nil => rfl
    | cons c cs =>
      by_cases hp : pairPat (c :: cs) = true
      · rw [wfAux, if_pos hp] at hw
        obtain ⟨w1, w2, w3⟩ : canonicalStamp ((c :: cs).take 12) = true ∧
            canonicalStamp (((c :: cs).drop 17).take 12) = true ∧
            wfAux n ((c :: cs).drop 29) = true := by
          simpa [Bool.and_eq_true, and_assoc] using hw
        rw [shiftAux, if_pos hp,
          parse_of_stamp (canonicalStamp_stamp12 w1),
          parse_of_stamp (canonicalStamp_stamp12 w2),
          add_zero, add_zero, format_timeVal w1, format_timeVal w2,
          ih _ w3]
        exact pairPat_reconstruct hp
      · rw [wfAux, if_neg hp] at hw
        rw [shiftAux, if_neg hp, ih _ hw]

/-- C4 (spec-modelled): for every well-formed subtitle track text, the shift
transform applied with offset 0 returns text identical to its input. -/
theorem C4_shift_zero_identity (t : List Char) (h : wfTrack t = true) :
    shiftChars t 0 = t :=
  shiftAux_zero t.length t h

/-- C4 witness: a concrete well-formed track is unchanged by a zero shift. -/
theorem C4_shift_zero_witness :
    shiftChars ("1\n00:00:01,000 --> 00:00:02,500\nHello world\n".data) 0
      = ("1\n00:00:01,000 --> 00:00:02,500\nHello world\n".data) :=
  C4_shift_zero_identity ("1\n00:00:01,000 --> 00:00:02,500\nHello world\n".data)
    (by decide)

theorem run_ffsubsync_ok (run : RunResult) (outF : FileState) :
    ∃ p, run_ffsubsync run outF = .ok p := by
  rcases run with e | res
  · rcases e with m | _ | m <;> exact ⟨_, rfl⟩
  · exact ⟨_, rfl⟩

theorem run_alass_sync_ok (run : RunResult) (outF : FileState) :
    ∃ p, run_alass_sync run outF = .ok p := by
  rcases run with e | res
  · rcases e with m | _ | m <;> exact ⟨_, rfl⟩
  · exact ⟨_, rfl⟩

theorem tryPrimary_ok (env : Env) : ∃ p, tryPrimary env = .ok p := by
  obtain ⟨p, hp⟩ := run_ffsubsync_ok env.ffsubRun env.ffsubOut
  exact ⟨p, by unfold tryPrimary; rw [hp]⟩

theorem sync_subtitle_ok (env : Env) (request : SyncRequest) :
    ∃ r, sync_subtitle env request = .ok r := by
  unfold sync_subtitle
  by_cases hx : extract_audio env.ffmpegRun env.audioOut = false
  · rw [if_pos hx]
    exact ⟨_, rfl⟩
  · rw [if_neg hx]
    obtain ⟨⟨s1, l1⟩, hp⟩ := tryPrimary_ok env
    rw [hp]
    obtain ⟨⟨s2, l2⟩, ha⟩ := run_alass_sync_ok env.alassRun env.alassOut
    cases s1
    · rw [ha]
      cases s2
      · exact ⟨_, rfl⟩
      · exact ⟨_, rfl⟩
    · exact ⟨_, rfl⟩

/-- C5: for every environment and request the orchestrator never propagates
an exception to its caller: sync_subtitle always returns a well-formed
response, even when every internal step fails. -/
theorem C5_never_raises (env : Env) (request : SyncRequest) :
    ∃ r, sync_subtitle env request = Except.ok r :=
  sync_subtitle_ok env request

/-- C7: on every failure path of the orchestrator, a returned response with
success = false has offset_ms = 0 and no synced subtitle. -/
theorem C7_failure_fields (env : Env) (request : SyncRequest)
    (r : SyncResponse) (hok : sync_subtitle env request = Except.ok r)
    (hfail : r.success = false) :
    r.offset_ms = 0 ∧ r.synced_subtitle = none := by
  unfold sync_subtitle at hok
  by_cases hx : extract_audio env.ffmpegRun env.audioOut = false
  · rw [if_pos hx] at hok
    injection hok with h
    subst h
    exact ⟨rfl, rfl⟩
  · rw [if_neg hx] at hok
    obtain ⟨⟨s1, l1⟩, hp⟩ := tryPrimary_ok env
    rw [hp] at hok
    obtain ⟨⟨s2, l2⟩, ha⟩ := run_alass_sync_ok env.alassRun env.alassOut
    cases s1
    · rw [ha] at hok
      cases s2
      · injection hok with h
        subst h
        exact ⟨rfl, rfl⟩
      · injection hok with h
        subst h
        simp at hfail
    · injection hok with h
      subst h
      simp at hfail

/-- C7 witness: the extraction-failure response has offset 0 and no synced
subtitle. -/
theorem C7_failure_witness :
    respExtractFail.offset_ms = 0 ∧ respExtractFail.synced_subtitle = none :=
  C7_failure_fields envExtractFail reqEx respExtractFail rfl rfl

/-- C3 counterexample: the primary tool's output contains the token
score: 0.5, yet the returned confidence is the constant 0.9, not the parsed
0.5 — the code never parses the tool output for a score. -/
theorem C3_counterexample :
    Except.map SyncResponse.confidence (sync_subtitle envScore reqEx)
      = Except.ok (some ((9 : ℚ) / 10)) ∧
    ¬ ((9 : ℚ) / 10 = 5 / 10) := by
  constructor
  · rfl
  · norm_num

/-- C3 (amended): the confidence field never reflects the tool output; it is
exactly the constant 0.9 whenever success is true and absent otherwise. -/
theorem C3_confidence_always_fixed (env : Env) (request : SyncRequest)
    (r : SyncResponse) (hok : sync_subtitle env request = Except.ok r) :
    r.confidence = (if r.success = true then some ((9 : ℚ) / 10) else none) := by
  unfold sync_subtitle at hok
  by_cases hx : extract_audio env.ffmpegRun env.audioOut = false
  · rw [if_pos hx] at hok
    injection hok with h
    subst h
    rfl
  · rw [if_neg hx] at hok
    obtain ⟨⟨s1, l1⟩, hp⟩ := tryPrimary_ok env
    rw [hp] at hok
    obtain ⟨⟨s2, l2⟩, ha⟩ := run_alass_sync_ok env.alassRun env.alassOut
    cases s1
    · rw [ha] at hok
      cases s2
      · injection hok with h
        subst h
        rfl
      · injection hok with h
        subst h
        rfl
    · injection hok with h
      subst h
      rfl

/-- C3 witness: the fixed-confidence law applied to a concrete run. -/
theorem C3_confidence_witness :
    respExtractFail.confidence
      = (if respExtractFail.success = true then some ((9 : ℚ) / 10) else none) :=
  C3_confidence_always_fixed envExtractFail reqEx respExtractFail rfl

/-- C6: when audio extraction succeeded and the primary attempt failed (tool
failure, timeout, exception or absent executable all make its flag false),
the result succeeds exactly when the fallback does, and on fallback success
the fallback's output file is what is returned and used for the offset. -/
theorem C6_fallback_result (env : Env) (request : SyncRequest)
    (r : SyncResponse) (hok : sync_subtitle env request = Except.ok r)
    (hx : extract_audio env.ffmpegRun env.audioOut = true)
    (hp : primarySuccess env = false) :
    r.success = alassSuccess env ∧
    (alassSuccess env = true →
      r.synced_subtitle = some env.alassOut.content ∧
      r.offset_ms = calculate_offset_from_srt request.subtitle.data
        env.alassOut.content.data) := by
  unfold sync_subtitle at hok
  rw [if_neg (by simp [hx])] at hok
  obtain ⟨⟨s1, l1⟩, hpr⟩ := tryPrimary_ok env
  have h1 : primarySuccess env = s1 := by
    unfold primarySuccess
    rw [hpr]
  have hs1 : s1 = false := by
    rw [← h1]
    exact hp
  subst hs1
  rw [hpr] at hok
  obtain ⟨⟨s2, l2⟩, ha⟩ := run_alass_sync_ok env.alassRun env.alassOut
  have hals : alassSuccess env = s2 := by
    unfold alassSuccess
    rw [ha]
  rw [ha] at hok
  cases s2
  · injection hok with h
    subst h
    refine ⟨by rw [hals], fun hcontra => ?_⟩
    rw [hals] at hcontra
    exact absurd hcontra (by decide)
  · injection hok with h
    subst h
    exact ⟨by rw [hals], fun _ => ⟨rfl, rfl⟩⟩

/-- C6 witness: primary executable absent, fallback succeeds; the response is
successful and carries the fallback output and its offset. -/
theorem C6_fallback_witness :
    respFallback.success = alassSuccess envFallback ∧
    (alassSuccess envFallback = true →
      respFallback.synced_subtitle = some envFallback.alassOut.content ∧
      respFallback.offset_ms = calculate_offset_from_srt reqEx.subtitle.data
        envFallback.alassOut.content.data) :=
  C6_fallback_result envFallback reqEx respFallback rfl rfl rfl

/-- C9: the offset endpoint returns exactly the sync endpoint's response with
the synced_subtitle field cleared; every other field agrees. -/
theorem C9_offset_same_but_subtitle (env : Env) (request : SyncRequest) :
    ∃ r r', sync_subtitle env request = Except.ok r ∧
      get_offset_only env request = Except.ok r' ∧
      r'.success = r.success ∧ r'.offset_ms = r.offset_ms ∧
      r'.confidence = r.confidence ∧ r'.message = r.message ∧
      r'.processing_time_ms = r.processing_time_ms ∧
      r'.synced_subtitle = none := by
  obtain ⟨r, hr⟩ := sync_subtitle_ok env request
  refine ⟨r, { r with synced_subtitle := none }, hr, ?_, rfl, rfl, rfl, rfl,
    rfl, rfl⟩
  unfold get_offset_only
  rw [hr]
